import Mathlib

/-!
Verification of the adaptive read-ahead prefetch subsystem of this
repository (`src/file/readahead_raf.cc` and `src/file/file_prefetch_buffer.h`).

The embedding is shallow and executable:
* bytes are modelled as `List Nat`;
* the external random-access file reader is a function
  `Nat → Nat → Except String (List Nat)` giving, for an offset and a length,
  either the bytes delivered or a forwarded I/O error;
* each operation on the readahead wrapper returns, besides its status/result,
  the new wrapper state and the number of calls made to the external reader,
  so that "zero additional I/O" claims are statements about that count.
-/

namespace RocksDB

/-- `Roundup(x, y)` from the alignment utilities: rounds `x` up to the next
multiple of `y` (`((x + y - 1) / y) * y`). -/
def Roundup (x y : Nat) : Nat := ((x + y - 1) / y) * y

/-- `TruncateToPageBoundary(page_size, s)` from the alignment utilities:
rounds `s` down to a multiple of `page_size`. -/
def TruncateToPageBoundary (pageSize s : Nat) : Nat := s - s % pageSize

/-- The external random-access file reader, specified only at its interface
boundary: a synchronous `read(offset, length)` returning bytes or an error. -/
def Reader : Type := Nat → Nat → Except String (List Nat)

/-- The immutable configuration of `ReadaheadRandomAccessFile`: the required
buffer alignment of the wrapped file and the (already rounded-up) readahead
size, which is also the capacity of the single cache buffer allocated by the
constructor. -/
structure RAFConfig where
  alignment : Nat
  readahead_size_ : Nat
deriving DecidableEq, Repr

/-- The mutable state of `ReadaheadRandomAccessFile`: the bytes currently held
by the aligned cache buffer (`buffer_`, with `CurrentSize` its length) and the
file offset they were read from (`buffer_offset_`). -/
structure RAFState where
  buffer_ : List Nat
  buffer_offset_ : Nat
deriving DecidableEq, Repr

/-- `buffer_.CurrentSize()`: the number of bytes currently populated. -/
def RAFState.CurrentSize (st : RAFState) : Nat := st.buffer_.length

/-- `ReadaheadRandomAccessFile::TryReadFromCache`: if `offset` falls inside the
cached range, copy up to `n` cached bytes and report a hit together with the
number of bytes copied; otherwise report a miss with zero bytes.  It never
touches the external reader. -/
def RAFState.TryReadFromCache (st : RAFState) (offset n : Nat) :
    Bool × Nat × List Nat :=
  if offset < st.buffer_offset_ ∨ st.buffer_offset_ + st.CurrentSize ≤ offset then
    (false, 0, [])
  else
    let offsetInBuffer := offset - st.buffer_offset_
    let cachedLen := min (st.CurrentSize - offsetInBuffer) n
    (true, cachedLen, (st.buffer_.drop offsetInBuffer).take cachedLen)

/-- `ReadaheadRandomAccessFile::ReadIntoBuffer`: cap `n` at the buffer
capacity (the configured readahead size), issue one blocking read against the
external reader, and on success repopulate the buffer with the delivered bytes
at `offset`.  On failure the caller's state is kept unchanged.  The second
component counts the external reader calls (always exactly one). -/
def RAFState.ReadIntoBuffer (_st : RAFState) (cfg : RAFConfig) (reader : Reader)
    (offset n : Nat) : Except String RAFState × Nat :=
  let n := min n cfg.readahead_size_
  match reader offset n with
  | Except.error e => (Except.error e, 1)
  | Except.ok bs => (Except.ok { buffer_ := bs, buffer_offset_ := offset }, 1)

/-- `ReadaheadRandomAccessFile::Read`: requests whose length plus alignment
reaches the readahead size are forwarded directly to the wrapped file; smaller
requests are served from the cache, refilling it (one aligned chunk of
readahead size) when the cache does not already satisfy the request. -/
def RAFState.Read (st : RAFState) (cfg : RAFConfig) (reader : Reader)
    (offset n : Nat) : Except String (List Nat) × RAFState × Nat :=
  if cfg.readahead_size_ ≤ n + cfg.alignment then
    match reader offset n with
    | Except.error e => (Except.error e, st, 1)
    | Except.ok bs => (Except.ok bs, st, 1)
  else
    let t := st.TryReadFromCache offset n
    if t.1 = true ∧ (t.2.1 = n ∨ st.CurrentSize < cfg.readahead_size_) then
      (Except.ok t.2.2, st, 0)
    else
      let advancedOffset := offset + t.2.1
      let chunkOffset := TruncateToPageBoundary cfg.alignment advancedOffset
      match st.ReadIntoBuffer cfg reader chunkOffset cfg.readahead_size_ with
      | (Except.error e, c) => (Except.error e, st, c)
      | (Except.ok st2, c) =>
          let t2 := st2.TryReadFromCache advancedOffset (n - t.2.1)
          (Except.ok (t.2.2 ++ t2.2.2), st2, c)

/-- `ReadaheadRandomAccessFile::Prefetch`: prefetches smaller than the
readahead size are refused (a silent OK no-op); otherwise the offset is
truncated to the page boundary, and if that already equals the cached buffer
offset nothing is done, else the rounded range is read into the buffer. -/
def RAFState.Prefetch (st : RAFState) (cfg : RAFConfig) (reader : Reader)
    (offset n : Nat) : Except String Unit × RAFState × Nat :=
  if n < cfg.readahead_size_ then
    (Except.ok (), st, 0)
  else
    let prefetchOffset := TruncateToPageBoundary cfg.alignment offset
    if prefetchOffset = st.buffer_offset_ then
      (Except.ok (), st, 0)
    else
      match st.ReadIntoBuffer cfg reader prefetchOffset
          (Roundup (offset + n) cfg.alignment - prefetchOffset) with
      | (Except.error e, c) => (Except.error e, st, c)
      | (Except.ok st2, c) => (Except.ok (), st2, c)

/-- A concrete reader used by witnesses: delivers `length` bytes counting up
from `offset`. -/
def rampReader : Reader := fun offset n => Except.ok ((List.range n).map (· + offset))

/-- A concrete reader used by counterexamples: every read fails. -/
def failingReader : Reader := fun _ _ => Except.error "io"

/-- A concrete wrapper state used by witnesses and counterexamples: the cache
holds the eight bytes `[10, 11, ..., 17]` of file range `[4, 12)`. -/
def rafStateA : RAFState := { buffer_ := [10, 11, 12, 13, 14, 15, 16, 17], buffer_offset_ := 4 }

/-- A concrete wrapper configuration: alignment 2, readahead size 8. -/
def rafCfgA : RAFConfig := { alignment := 2, readahead_size_ := 8 }

/-- A concrete wrapper state whose buffer is not full: the six bytes
`[10, ..., 15]` of file range `[4, 10)` (capacity of `rafCfgA` is 8). -/
def rafStateB : RAFState := { buffer_ := [10, 11, 12, 13, 14, 15], buffer_offset_ := 4 }

/-! ### FilePrefetchBuffer (`src/file/file_prefetch_buffer.h`)

The excerpt contains the class and `BufferInfo` declarations with a few
inline member bodies (`UpdateReadPattern`, `GetPrefetchOffset`,
`GetReadaheadState`, the `BufferInfo` helpers); the out-of-line member
bodies are not part of the excerpt.  Where a claim depends on such a body
it is modelled from the spec, with a doc comment saying so. -/

/-- `DEFAULT_DECREMENT` from `file_prefetch_buffer.h`: 8 KiB. -/
def DEFAULT_DECREMENT : Nat := 8 * 1024

/-- `BufferInfo` from `file_prefetch_buffer.h`: one aligned block of the
prefetch buffer — its bytes, its file offset, and the bookkeeping of an
outstanding asynchronous fetch (`async_req_len_`, `async_read_in_progress_`,
`initial_end_offset_`; the opaque `io_handle_` is left out as it carries no
byte-level meaning). -/
structure BufferInfo where
  buffer_ : List Nat
  offset_ : Nat
  async_req_len_ : Nat
  async_read_in_progress_ : Bool
  initial_end_offset_ : Nat
deriving DecidableEq, Repr

/-- `BufferInfo::CurrentSize`. -/
def BufferInfo.CurrentSize (b : BufferInfo) : Nat := b.buffer_.length

/-- `BufferInfo::ClearBuffer`. -/
def BufferInfo.ClearBuffer (b : BufferInfo) : BufferInfo :=
  { b with buffer_ := [], initial_end_offset_ := 0, async_req_len_ := 0 }

/-- `BufferInfo::IsDataBlockInBuffer`: the whole of `[offset, offset+length)`
lies inside the populated range. -/
def BufferInfo.IsDataBlockInBuffer (b : BufferInfo) (offset length : Nat) : Bool :=
  decide (b.offset_ ≤ offset ∧ offset + length ≤ b.offset_ + b.CurrentSize)

/-- `BufferInfo::IsOffsetInBuffer`. -/
def BufferInfo.IsOffsetInBuffer (b : BufferInfo) (offset : Nat) : Bool :=
  decide (b.offset_ ≤ offset ∧ offset < b.offset_ + b.CurrentSize)

/-- The state of `FilePrefetchBuffer`: the buffer queue `bufs_` (front =
oldest/lowest-offset live block) plus the adaptive-sizing bookkeeping and
configuration fields referenced by the inline members of the header
(`readahead_size_`, `num_file_reads_`, `prev_offset_`, `prev_len_`,
`explicit_prefetch_submitted_`) and the `ReadaheadParams` configuration
(initial/max readahead size, auto-readahead threshold, `num_buffers`). -/
structure FPBState where
  bufs_ : List BufferInfo
  readahead_size_ : Nat
  initial_readahead_size_ : Nat
  max_readahead_size_ : Nat
  num_file_reads_ : Nat
  num_file_reads_for_auto_readahead_ : Nat
  num_buffers_ : Nat
  prev_offset_ : Nat
  prev_len_ : Nat
  explicit_prefetch_submitted_ : Bool
deriving DecidableEq, Repr

/-- Modelled from the spec: the body of `IsBlockSequential` is not in the
excerpt; §4.4 classifies a read as sequential iff its offset equals
`previousReadOffset + previousReadLength`. -/
def FPBState.IsBlockSequential (st : FPBState) (offset : Nat) : Bool :=
  decide (st.prev_offset_ + st.prev_len_ = offset)

/-- Modelled from the spec: the body of `DecreaseReadAheadIfEligible` is not
in the excerpt; §4.4 says that, when triggered, it checks eligibility — the
pattern had been sequential (a nonzero consecutive-sequential-read counter)
and `currentReadaheadSize` has doubled past the initial size — and if
eligible reduces `readahead_size_` by `value` down to a floor of
`initial_readahead_size_` and resets the sequential counter to zero. -/
def FPBState.DecreaseReadAheadIfEligible (st : FPBState)
    (_offset _size value : Nat) : FPBState :=
  if 0 < st.num_file_reads_ ∧ st.initial_readahead_size_ < st.readahead_size_ then
    { st with
        readahead_size_ := max st.initial_readahead_size_ (st.readahead_size_ - value),
        num_file_reads_ := 0 }
  else st

/-- `FilePrefetchBuffer::UpdateReadPattern` (inline in the header): optionally
runs the eligibility-gated decrease, then records the read as the new
previous offset/length and clears the explicit-prefetch flag. -/
def FPBState.UpdateReadPattern (st : FPBState) (offset len : Nat)
    (decrease_readaheadsize : Bool) : FPBState :=
  let st1 := if decrease_readaheadsize then
    st.DecreaseReadAheadIfEligible offset len DEFAULT_DECREMENT
  else st
  { st1 with prev_offset_ := offset, prev_len_ := len,
             explicit_prefetch_submitted_ := false }

/-- `FilePrefetchBuffer::GetPrefetchOffset` (inline in the header): the C++
returns `bufs_.front()->offset_` with no emptiness check; `front()` on an
empty deque has no defined result, which the embedding renders as `none`. -/
def FPBState.GetPrefetchOffset (st : FPBState) : Option Nat :=
  match st.bufs_ with
  | [] => none
  | b :: _ => some b.offset_

/-- The BlockSet failure taxonomy of spec §7 that is relevant here. -/
inductive BlockSetError where
  | PreconditionViolation
deriving DecidableEq, Repr

/-- The behaviour the spec claims for querying the front of the BlockSet
(§4.1/§7, stated for comparison with `FPBState.GetPrefetchOffset`): on an
empty BlockSet it fails with `PreconditionViolation` instead of performing an
unchecked access. -/
def FPBState.GetPrefetchOffsetAsSpecified (st : FPBState) :
    Except BlockSetError Nat :=
  match st.bufs_ with
  | [] => Except.error BlockSetError.PreconditionViolation
  | b :: _ => Except.ok b.offset_

/-- Modelled from the spec: the sizing side of a sequential miss (§4.4); the
`.cc` implementing it is not in the excerpt.  The consecutive-sequential-read
counter advances, and once implicit read-ahead is active (the counter has
reached `num_file_reads_for_auto_readahead_`) the readahead size doubles,
capped at `max_readahead_size_`. -/
def FPBState.SequentialMissStep (st : FPBState) : FPBState :=
  if st.num_file_reads_for_auto_readahead_ ≤ st.num_file_reads_ then
    { st with num_file_reads_ := st.num_file_reads_ + 1,
              readahead_size_ := min (st.readahead_size_ * 2) st.max_readahead_size_ }
  else
    { st with num_file_reads_ := st.num_file_reads_ + 1 }

/-- Modelled from the spec: obtaining a buffer for a newly needed block
(`AllocateBuffer`'s body is not in the excerpt).  §2/§4.3/§8: blocks are
allocated on demand while under `num_buffers_`; at capacity the front —
oldest, lowest-offset — block is evicted and the new block takes the back. -/
def FPBState.ObtainBufferForBlock (st : FPBState) (b : BufferInfo) : FPBState :=
  if st.bufs_.length < st.num_buffers_ then
    { st with bufs_ := st.bufs_ ++ [b] }
  else
    { st with bufs_ := st.bufs_.tail ++ [b] }

/-- Modelled from the spec: `FreeFrontBuffer` (body not in the excerpt)
releases the front block of the queue. -/
def FPBState.FreeFrontBuffer (st : FPBState) : FPBState :=
  { st with bufs_ := st.bufs_.tail }

/-- Modelled from the spec: `FreeLastBuffer` (body not in the excerpt)
releases the back block of the queue. -/
def FPBState.FreeLastBuffer (st : FPBState) : FPBState :=
  { st with bufs_ := st.bufs_.dropLast }

/-- Modelled from the spec: `FreeAllBuffers` (body not in the excerpt)
releases every block of the queue. -/
def FPBState.FreeAllBuffers (st : FPBState) : FPBState :=
  { st with bufs_ := [] }

/-- The operations a caller can drive the prefetch buffer state through; used
to state "after any sequence of operations" invariants. -/
inductive FPBOp where
  | sequentialMiss : FPBOp
  | updateReadPattern : Nat → Nat → Bool → FPBOp
  | obtainBuffer : BufferInfo → FPBOp
  | freeFront : FPBOp
  | freeLast : FPBOp
  | freeAll : FPBOp

/-- One step of the operation language. -/
def FPBState.applyOp (st : FPBState) : FPBOp → FPBState
  | FPBOp.sequentialMiss => st.SequentialMissStep
  | FPBOp.updateReadPattern o l d => st.UpdateReadPattern o l d
  | FPBOp.obtainBuffer b => st.ObtainBufferForBlock b
  | FPBOp.freeFront => st.FreeFrontBuffer
  | FPBOp.freeLast => st.FreeLastBuffer
  | FPBOp.freeAll => st.FreeAllBuffers

/-- A whole sequence of operations, applied front to back. -/
def FPBState.applyOps (st : FPBState) (ops : List FPBOp) : FPBState :=
  ops.foldl FPBState.applyOp st

/-- A concrete block used by witnesses. -/
def blockAt (offset : Nat) (bytes : List Nat) : BufferInfo :=
  { buffer_ := bytes, offset_ := offset, async_req_len_ := 0,
    async_read_in_progress_ := false, initial_end_offset_ := 0 }

/-- A concrete prefetch-buffer state used by witnesses: the spec's §8 vector
(`num_file_reads_for_auto_readahead = 2`, `initial_readahead_size = 4096`,
`max_readahead_size = 16384`, two buffers), with two blocks live at offsets
0 and 8. -/
def fpbExample : FPBState :=
  { bufs_ := [blockAt 0 [1, 2], blockAt 8 [3, 4]],
    readahead_size_ := 4096,
    initial_readahead_size_ := 4096,
    max_readahead_size_ := 16384,
    num_file_reads_ := 2,
    num_file_reads_for_auto_readahead_ := 2,
    num_buffers_ := 2,
    prev_offset_ := 8,
    prev_len_ := 2,
    explicit_prefetch_submitted_ := false }

/-- A concrete prefetch-buffer state whose readahead size has doubled past
the initial size (8192 > 4096); decrementing it by 8 KiB floors at the
initial size. -/
def fpbGrown : FPBState :=
  { fpbExample with readahead_size_ := 8192, num_file_reads_ := 3 }

/-- A concrete prefetch-buffer state far enough above the floor that the
decrement applies exactly: `initial = 4`, `readahead = 9000`,
`9000 - 8192 = 808 ≥ 4`. -/
def fpbHigh : FPBState :=
  { fpbExample with readahead_size_ := 9000, initial_readahead_size_ := 4,
                    num_file_reads_ := 3 }

/-- A concrete empty prefetch-buffer state, used by the C8 theorems. -/
def fpbEmpty : FPBState :=
  { fpbExample with bufs_ := [] }

/-- C1: for a range fully inside the populated cache buffer (and small enough
that `Read` takes the cached path at all), `TryReadFromCache` reports a full
hit returning exactly the previously fetched bytes of that range, and `Read`
returns those bytes unchanged with zero calls to the external reader. -/
theorem tryReadFromCache_full_hit_exact_bytes (cfg : RAFConfig) (reader : Reader)
    (st : RAFState) (offset n : Nat)
    (hn : 1 ≤ n)
    (hlow : st.buffer_offset_ ≤ offset)
    (hhigh : offset + n ≤ st.buffer_offset_ + st.CurrentSize)
    (hsmall : n + cfg.alignment < cfg.readahead_size_) :
    st.TryReadFromCache offset n =
      (true, n, (st.buffer_.drop (offset - st.buffer_offset_)).take n) ∧
    st.Read cfg reader offset n =
      (Except.ok ((st.buffer_.drop (offset - st.buffer_offset_)).take n), st, 0) := by
  have hmiss : ¬(offset < st.buffer_offset_ ∨ st.buffer_offset_ + st.CurrentSize ≤ offset) := by
    omega
  have hmin : min (st.CurrentSize - (offset - st.buffer_offset_)) n = n :=
    Nat.min_eq_right (by omega)
  have hcache : st.TryReadFromCache offset n =
      (true, n, (st.buffer_.drop (offset - st.buffer_offset_)).take n) := by
    simp only [RAFState.TryReadFromCache, if_neg hmiss]
    rw [hmin]
  refine ⟨hcache, ?_⟩
  unfold RAFState.Read
  rw [if_neg (by omega), hcache]
  simp

/-- Witness for C1 at a concrete input: range `[6, 9)` inside the cached
range `[4, 12)` of `rafStateA`. -/
theorem tryReadFromCache_full_hit_exact_bytes_witness :
    rafStateA.TryReadFromCache 6 3 = (true, 3, [12, 13, 14]) ∧
    rafStateA.Read rafCfgA rampReader 6 3 = (Except.ok [12, 13, 14], rafStateA, 0) :=
  tryReadFromCache_full_hit_exact_bytes rafCfgA rampReader rafStateA 6 3
    (by decide) (by decide) (by decide) (by decide)

/-- C9: when the requested length plus the required alignment reaches the
configured readahead size, `Read` forwards the request directly to the wrapped
file — the status is exactly the external reader's answer, the cache buffer
and its offset are unchanged, and exactly the one forwarded call is made. -/
theorem read_large_request_forwards_directly (cfg : RAFConfig) (reader : Reader)
    (st : RAFState) (offset n : Nat)
    (hbig : cfg.readahead_size_ ≤ n + cfg.alignment) :
    (st.Read cfg reader offset n).1 = reader offset n ∧
    (st.Read cfg reader offset n).2.1 = st ∧
    (st.Read cfg reader offset n).2.2 = 1 := by
  unfold RAFState.Read
  rw [if_pos hbig]
  cases reader offset n <;> simp

/-- Witness for C9 at a concrete input: a 7-byte read against `rafCfgA`
(7 + 2 ≥ 8) is forwarded to `rampReader` untouched. -/
theorem read_large_request_forwards_directly_witness :
    (rafStateA.Read rafCfgA rampReader 20 7).1 = rampReader 20 7 ∧
    (rafStateA.Read rafCfgA rampReader 20 7).2.1 = rafStateA ∧
    (rafStateA.Read rafCfgA rampReader 20 7).2.2 = 1 :=
  read_large_request_forwards_directly rafCfgA rampReader rafStateA 20 7 (by decide)

/-- C10: a `Prefetch` whose length is strictly smaller than the configured
readahead size returns OK immediately: no external read is issued and the
cache buffer state is unchanged, regardless of what the buffer holds. -/
theorem prefetch_small_request_noop (cfg : RAFConfig) (reader : Reader)
    (st : RAFState) (offset n : Nat)
    (hsmall : n < cfg.readahead_size_) :
    st.Prefetch cfg reader offset n = (Except.ok (), st, 0) := by
  unfold RAFState.Prefetch
  rw [if_pos hsmall]

/-- Witness for C10 at a concrete input: a 5-byte prefetch against `rafCfgA`
(5 < 8) is an OK no-op. -/
theorem prefetch_small_request_noop_witness :
    rafStateA.Prefetch rafCfgA rampReader 100 5 = (Except.ok (), rafStateA, 0) :=
  prefetch_small_request_noop rafCfgA rampReader rafStateA 100 5 (by decide)

/-- C5: `Prefetch` is idempotent on covered ranges.  If the cache buffer
already covers `[offset, offset + n)` — the same coverage condition
`TryReadFromCache` tests — then a (repeated) `Prefetch` call is a no-op: it
returns OK, leaves the state unchanged and issues no external read.  The two
hypotheses `halign` and `hcap` are state invariants: `buffer_offset_` is only
ever set to a page-truncated value and the buffer never outgrows its
capacity. -/
theorem prefetch_idempotent_on_covered_range (cfg : RAFConfig) (reader : Reader)
    (st : RAFState) (offset n : Nat)
    (halign : cfg.alignment ∣ st.buffer_offset_)
    (hcap : st.CurrentSize ≤ cfg.readahead_size_)
    (hlow : st.buffer_offset_ ≤ offset)
    (hhigh : offset + n ≤ st.buffer_offset_ + st.CurrentSize) :
    st.Prefetch cfg reader offset n = (Except.ok (), st, 0) := by
  unfold RAFState.Prefetch
  by_cases hn : n < cfg.readahead_size_
  · rw [if_pos hn]
  · have heq : offset = st.buffer_offset_ := by omega
    obtain ⟨k, hk⟩ := halign
    have htr : TruncateToPageBoundary cfg.alignment offset = st.buffer_offset_ := by
      subst heq
      unfold TruncateToPageBoundary
      rw [hk, Nat.mul_mod_right]
      omega
    rw [if_neg hn]
    simp [htr]

/-- Witness for C5 at a concrete input: range `[6, 9)` is covered by
`rafStateA` (offset 4, eight bytes, alignment 2 divides 4), so prefetching it
again is a no-op success with zero reads. -/
theorem prefetch_idempotent_on_covered_range_witness :
    rafStateA.Prefetch rafCfgA rampReader 6 3 = (Except.ok (), rafStateA, 0) :=
  prefetch_idempotent_on_covered_range rafCfgA rampReader rafStateA 6 3
    (by decide) (by decide) (by decide) (by decide)

/-- C6 counterexample: the claim says a failed fetch leaves the target
buffer's `currentSize()` at 0, but `ReadIntoBuffer` only updates the buffer
bookkeeping on success — after a failed `Prefetch` from a state whose buffer
held 8 bytes, `CurrentSize` is still 8, not 0. -/
theorem prefetch_failed_read_keeps_old_size :
    (rafStateA.Prefetch ⟨1, 8⟩ failingReader 16 8).1 = Except.error "io" ∧
    (rafStateA.Prefetch ⟨1, 8⟩ failingReader 16 8).2.1.CurrentSize = 8 :=
  ⟨rfl, rfl⟩

/-- C6 amended: when the underlying read of a `Prefetch` fails, the error is
forwarded verbatim and the wrapper state is left entirely unchanged — in
particular `CurrentSize` keeps its previous value (which is 0 only if the
buffer was empty before the call). -/
theorem prefetch_failed_read_state_unchanged (cfg : RAFConfig) (reader : Reader)
    (st : RAFState) (offset n : Nat) (e : String)
    (hn : cfg.readahead_size_ ≤ n)
    (hne : TruncateToPageBoundary cfg.alignment offset ≠ st.buffer_offset_)
    (hrd : reader (TruncateToPageBoundary cfg.alignment offset)
        (min (Roundup (offset + n) cfg.alignment -
          TruncateToPageBoundary cfg.alignment offset) cfg.readahead_size_) =
        Except.error e) :
    st.Prefetch cfg reader offset n = (Except.error e, st, 1) := by
  unfold RAFState.Prefetch RAFState.ReadIntoBuffer
  rw [if_neg (not_lt.mpr hn)]
  simp only [if_neg hne, hrd]

/-- Witness for C6's amended theorem at a concrete input: the failing reader
makes `Prefetch` return the forwarded error with the state untouched. -/
theorem prefetch_failed_read_state_unchanged_witness :
    rafStateA.Prefetch ⟨1, 8⟩ failingReader 16 8 = (Except.error "io", rafStateA, 1) :=
  prefetch_failed_read_state_unchanged ⟨1, 8⟩ failingReader rafStateA 16 8 "io"
    (by decide) (by decide) rfl

/-- C7 counterexample: the claim says a read for which the buffer covers only
a prefix never returns an error, but when the buffer is at capacity the code
issues an internal refill read, and if that underlying read fails the error is
returned — here `[8, 14)` is prefix-covered (4 bytes) by the full buffer of
`rafStateA`, yet `Read` returns the refill error. -/
theorem read_partial_coverage_error_counterexample :
    (rafStateA.TryReadFromCache 8 6).1 = true ∧
    (rafStateA.TryReadFromCache 8 6).2.1 = 4 ∧
    (rafStateA.Read ⟨1, 8⟩ failingReader 8 6).1 = Except.error "io" :=
  ⟨rfl, rfl, rfl⟩

/-- C7 amended: a short satisfied length is itself never an error.  When the
buffer covers only a prefix of the request and cannot be refilled further
(its size is below the readahead capacity, i.e. the file end was reached),
`Read` returns OK with exactly the covered prefix, reporting the actual
number of bytes satisfied (strictly less than requested) with no I/O; an
error can arise only from a failing internal refill read, which is then
forwarded. -/
theorem read_partial_prefix_reports_actual_length (cfg : RAFConfig)
    (reader : Reader) (st : RAFState) (offset n : Nat)
    (hsmall : n + cfg.alignment < cfg.readahead_size_)
    (hlow : st.buffer_offset_ ≤ offset)
    (hin : offset < st.buffer_offset_ + st.CurrentSize)
    (hpref : st.buffer_offset_ + st.CurrentSize < offset + n)
    (heof : st.CurrentSize < cfg.readahead_size_) :
    st.Read cfg reader offset n =
      (Except.ok (st.buffer_.drop (offset - st.buffer_offset_)), st, 0) ∧
    (st.buffer_.drop (offset - st.buffer_offset_)).length =
      st.CurrentSize - (offset - st.buffer_offset_) ∧
    st.CurrentSize - (offset - st.buffer_offset_) < n := by
  have hmiss : ¬(offset < st.buffer_offset_ ∨
      st.buffer_offset_ + st.CurrentSize ≤ offset) := by omega
  have hmin : min (st.CurrentSize - (offset - st.buffer_offset_)) n =
      st.CurrentSize - (offset - st.buffer_offset_) := Nat.min_eq_left (by omega)
  have hlen : (st.buffer_.drop (offset - st.buffer_offset_)).length =
      st.CurrentSize - (offset - st.buffer_offset_) := by
    simp [RAFState.CurrentSize]
  have hcache : st.TryReadFromCache offset n =
      (true, st.CurrentSize - (offset - st.buffer_offset_),
        st.buffer_.drop (offset - st.buffer_offset_)) := by
    simp only [RAFState.TryReadFromCache, if_neg hmiss]
    rw [hmin, ← hlen, List.take_length]
  refine ⟨?_, hlen, by omega⟩
  unfold RAFState.Read
  rw [if_neg (by omega)]
  simp only [hcache]
  simp [heof]

/-- Witness for C7's amended theorem at a concrete input: request `[8, 12)`
against `rafStateB` (buffer `[4, 10)`, six bytes, capacity 8): two bytes are
satisfied, OK status, zero reads. -/
theorem read_partial_prefix_reports_actual_length_witness :
    rafStateB.Read rafCfgA rampReader 8 4 = (Except.ok [14, 15], rafStateB, 0) ∧
    ([14, 15] : List Nat).length = 2 ∧ 2 < 4 := by
  have h := read_partial_prefix_reports_actual_length rafCfgA rampReader rafStateB 8 4
    (by decide) (by decide) (by decide) (by decide) (by decide)
  exact ⟨h.1, by decide, by decide⟩

/-- Helper: a single operation preserves the sizing invariant — readahead
size and initial size both bounded by the maximum — and never alters the
configuration fields. -/
theorem applyOp_sizing_invariant (st : FPBState) (op : FPBOp)
    (h1 : st.readahead_size_ ≤ st.max_readahead_size_)
    (h2 : st.initial_readahead_size_ ≤ st.max_readahead_size_) :
    (st.applyOp op).readahead_size_ ≤ (st.applyOp op).max_readahead_size_ ∧
    (st.applyOp op).initial_readahead_size_ ≤ (st.applyOp op).max_readahead_size_ := by
  cases op with
  | sequentialMiss =>
      simp only [FPBState.applyOp, FPBState.SequentialMissStep]
      split <;> simp <;> omega
  | updateReadPattern o l d =>
      simp only [FPBState.applyOp, FPBState.UpdateReadPattern,
        FPBState.DecreaseReadAheadIfEligible]
      cases d
      · simpa using ⟨h1, h2⟩
      · by_cases hc : 0 < st.num_file_reads_ ∧
            st.initial_readahead_size_ < st.readahead_size_
        · simp only [hc, if_true, if_pos hc]
          simp
          omega
        · simpa [hc] using ⟨h1, h2⟩
  | obtainBuffer b =>
      simp only [FPBState.applyOp, FPBState.ObtainBufferForBlock]
      split <;> simp [h1, h2]
  | freeFront => exact ⟨h1, h2⟩
  | freeLast => exact ⟨h1, h2⟩
  | freeAll => exact ⟨h1, h2⟩

/-- Helper: a single operation preserves the capacity invariant — the buffer
queue is no longer than `num_buffers_`, which stays at least 1. -/
theorem applyOp_capacity_invariant (st : FPBState) (op : FPBOp)
    (h1 : st.bufs_.length ≤ st.num_buffers_)
    (h2 : 1 ≤ st.num_buffers_) :
    (st.applyOp op).bufs_.length ≤ (st.applyOp op).num_buffers_ ∧
    1 ≤ (st.applyOp op).num_buffers_ := by
  cases op with
  | sequentialMiss =>
      simp only [FPBState.applyOp, FPBState.SequentialMissStep]
      split <;> exact ⟨h1, h2⟩
  | updateReadPattern o l d =>
      simp only [FPBState.applyOp, FPBState.UpdateReadPattern,
        FPBState.DecreaseReadAheadIfEligible]
      cases d
      · simpa using ⟨h1, h2⟩
      · by_cases hc : 0 < st.num_file_reads_ ∧
            st.initial_readahead_size_ < st.readahead_size_
        · simpa [hc] using ⟨h1, h2⟩
        · simpa [hc] using ⟨h1, h2⟩
  | obtainBuffer b =>
      simp only [FPBState.applyOp, FPBState.ObtainBufferForBlock]
      split <;> simp [List.length_tail] <;> omega
  | freeFront =>
      refine ⟨?_, h2⟩
      simp only [FPBState.applyOp, FPBState.FreeFrontBuffer, List.length_tail]
      omega
  | freeLast =>
      refine ⟨?_, h2⟩
      simp only [FPBState.applyOp, FPBState.FreeLastBuffer, List.length_dropLast]
      omega
  | freeAll =>
      refine ⟨?_, h2⟩
      simp [FPBState.applyOp, FPBState.FreeAllBuffers]

/-- C2 (spec-modelled sizing step): once implicit read-ahead is active — the
consecutive-sequential-read counter has reached the auto-readahead
threshold — a sequential miss doubles the readahead size, capped at the
maximum; and starting from any state whose readahead size (and configured
initial size) respects the maximum, no sequence of operations ever drives the
readahead size above the maximum. -/
theorem readahead_doubles_and_never_exceeds_max :
    (∀ st : FPBState,
      st.num_file_reads_for_auto_readahead_ ≤ st.num_file_reads_ →
      st.SequentialMissStep.readahead_size_ =
        min (st.readahead_size_ * 2) st.max_readahead_size_ ∧
      st.SequentialMissStep.readahead_size_ ≤ st.max_readahead_size_) ∧
    (∀ (st : FPBState) (ops : List FPBOp),
      st.readahead_size_ ≤ st.max_readahead_size_ →
      st.initial_readahead_size_ ≤ st.max_readahead_size_ →
      (st.applyOps ops).readahead_size_ ≤ (st.applyOps ops).max_readahead_size_) := by
  constructor
  · intro st h
    have hs : st.SequentialMissStep.readahead_size_ =
        min (st.readahead_size_ * 2) st.max_readahead_size_ := by
      simp [FPBState.SequentialMissStep, if_pos h]
    exact ⟨hs, by rw [hs]; omega⟩
  · intro st ops
    induction ops generalizing st with
    | nil => intro h1 _; exact h1
    | cons op rest ih =>
        intro h1 h2
        have h := applyOp_sizing_invariant st op h1 h2
        exact ih (st.applyOp op) h.1 h.2

/-- Witness for C2 at the spec's §8 vector: from `fpbExample`
(readahead 4096, threshold 2 already reached, max 16384) a sequential miss
doubles to 8192, and three consecutive misses leave the size within the
maximum. -/
theorem readahead_doubles_and_never_exceeds_max_witness :
    fpbExample.SequentialMissStep.readahead_size_ = 8192 ∧
    (fpbExample.applyOps [FPBOp.sequentialMiss, FPBOp.sequentialMiss,
      FPBOp.sequentialMiss]).readahead_size_ ≤
      (fpbExample.applyOps [FPBOp.sequentialMiss, FPBOp.sequentialMiss,
        FPBOp.sequentialMiss]).max_readahead_size_ := by
  have h := readahead_doubles_and_never_exceeds_max
  refine ⟨?_, h.2 fpbExample _ (by decide) (by decide)⟩
  rw [(h.1 fpbExample (by decide)).1]
  decide

/-- C3 (spec-modelled decrease): a read at a non-contiguous offset, processed
through `UpdateReadPattern` with the decrease flag, from a state where the
pattern had been sequential and the readahead size has grown past the initial
size, sets the readahead size to `max initial (old - DEFAULT_DECREMENT)` —
exactly the configured 8 KiB decrement whenever that stays at or above the
floor, never below `initial_readahead_size_` — and resets the sequential
counter to zero. -/
theorem nonsequential_read_decreases_readahead (st : FPBState) (offset len : Nat)
    (hseq : 0 < st.num_file_reads_)
    (hgrown : st.initial_readahead_size_ < st.readahead_size_)
    (_hnoncontig : st.IsBlockSequential offset = false) :
    (st.UpdateReadPattern offset len true).readahead_size_ =
      max st.initial_readahead_size_ (st.readahead_size_ - DEFAULT_DECREMENT) ∧
    st.initial_readahead_size_ ≤ (st.UpdateReadPattern offset len true).readahead_size_ ∧
    (st.initial_readahead_size_ + DEFAULT_DECREMENT ≤ st.readahead_size_ →
      (st.UpdateReadPattern offset len true).readahead_size_ =
        st.readahead_size_ - DEFAULT_DECREMENT) ∧
    (st.UpdateReadPattern offset len true).num_file_reads_ = 0 := by
  have hcond : 0 < st.num_file_reads_ ∧
      st.initial_readahead_size_ < st.readahead_size_ := ⟨hseq, hgrown⟩
  have hupd : st.UpdateReadPattern offset len true =
      { st with
          readahead_size_ :=
            max st.initial_readahead_size_ (st.readahead_size_ - DEFAULT_DECREMENT),
          num_file_reads_ := 0,
          prev_offset_ := offset, prev_len_ := len,
          explicit_prefetch_submitted_ := false } := by
    simp [FPBState.UpdateReadPattern, FPBState.DecreaseReadAheadIfEligible, hcond]
  rw [hupd]
  refine ⟨rfl, Nat.le_max_left _ _, ?_, rfl⟩
  intro h
  simp only
  omega

/-- Witness for C3 at a concrete input: from `fpbHigh` (readahead 9000,
initial 4, counter 3, previous read `[8, 10)`), a read at the non-contiguous
offset 100 drops the readahead size by exactly 8192 to 808 and zeroes the
counter. -/
theorem nonsequential_read_decreases_readahead_witness :
    (fpbHigh.UpdateReadPattern 100 10 true).readahead_size_ = 808 ∧
    (fpbHigh.UpdateReadPattern 100 10 true).num_file_reads_ = 0 := by
  have h := nonsequential_read_decreases_readahead fpbHigh 100 10
    (by decide) (by decide) (by decide)
  refine ⟨?_, h.2.2.2⟩
  rw [h.2.2.1 (by decide)]
  decide

/-- C4 (spec-modelled block lifecycle): starting from any state respecting
the capacity bound, no operation sequence ever makes the buffer queue longer
than `num_buffers_`; and when a new block is needed at capacity, the evicted
block is the front one, whose offset is least among all live blocks (the
queue being ordered by offset). -/
theorem blockset_bounded_and_evicts_lowest :
    (∀ (st : FPBState) (ops : List FPBOp),
      st.bufs_.length ≤ st.num_buffers_ → 1 ≤ st.num_buffers_ →
      (st.applyOps ops).bufs_.length ≤ (st.applyOps ops).num_buffers_) ∧
    (∀ (st : FPBState) (b hd : BufferInfo) (tl : List BufferInfo),
      st.bufs_ = hd :: tl →
      st.num_buffers_ ≤ st.bufs_.length →
      st.bufs_.Pairwise (fun x y => x.offset_ ≤ y.offset_) →
      (st.ObtainBufferForBlock b).bufs_ = tl ++ [b] ∧
      ∀ x ∈ st.bufs_, hd.offset_ ≤ x.offset_) := by
  constructor
  · intro st ops
    induction ops generalizing st with
    | nil => intro h1 _; exact h1
    | cons op rest ih =>
        intro h1 h2
        have h := applyOp_capacity_invariant st op h1 h2
        exact ih (st.applyOp op) h.1 h.2
  · intro st b hd tl hbufs hfull hsorted
    constructor
    · simp only [FPBState.ObtainBufferForBlock,
        if_neg (by omega : ¬ st.bufs_.length < st.num_buffers_)]
      rw [hbufs]
      rfl
    · rw [hbufs] at hsorted ⊢
      intro x hx
      rcases List.mem_cons.mp hx with h | h
      · subst h; exact Nat.le_refl _
      · exact (List.pairwise_cons.mp hsorted).1 x h

/-- Witness for C4 at a concrete input: `fpbExample` holds two blocks
(offsets 0 and 8) at capacity 2; obtaining a block for offset 16 evicts the
offset-0 front block, and two further obtains keep the queue within bound. -/
theorem blockset_bounded_and_evicts_lowest_witness :
    (fpbExample.applyOps [FPBOp.obtainBuffer (blockAt 16 [5, 6]),
      FPBOp.obtainBuffer (blockAt 24 [7, 8])]).bufs_.length ≤
      (fpbExample.applyOps [FPBOp.obtainBuffer (blockAt 16 [5, 6]),
        FPBOp.obtainBuffer (blockAt 24 [7, 8])]).num_buffers_ ∧
    (fpbExample.ObtainBufferForBlock (blockAt 16 [5, 6])).bufs_ =
      [blockAt 8 [3, 4], blockAt 16 [5, 6]] ∧
    ∀ x ∈ fpbExample.bufs_, (blockAt 0 [1, 2]).offset_ ≤ x.offset_ := by
  have h := blockset_bounded_and_evicts_lowest
  have h2 := h.2 fpbExample (blockAt 16 [5, 6]) (blockAt 0 [1, 2])
    [blockAt 8 [3, 4]] rfl (by decide) (by decide)
  exact ⟨h.1 fpbExample _ (by decide) (by decide), h2.1, h2.2⟩

/-- C8 counterexample: on the empty BlockSet the code's `GetPrefetchOffset`
performs `bufs_.front()->offset_` with no emptiness check — an access with no
defined result, rendered `none` in the embedding — rather than failing with
`PreconditionViolation` as the claim states; the spec-following variant is
shown alongside for the comparison. -/
theorem getPrefetchOffset_empty_unchecked :
    fpbEmpty.GetPrefetchOffset = none ∧
    fpbEmpty.GetPrefetchOffsetAsSpecified =
      Except.error BlockSetError.PreconditionViolation :=
  ⟨rfl, rfl⟩

/-- C8 amended: `GetPrefetchOffset` is an unchecked front access — on a
nonempty queue it returns the front block's offset, and on an empty queue it
has no defined result (no `PreconditionViolation` is produced; the C++ there
is undefined behaviour, so callers must ensure nonemptiness). -/
theorem getPrefetchOffset_defined_iff_nonempty (st : FPBState) :
    (∀ hd tl, st.bufs_ = hd :: tl → st.GetPrefetchOffset = some hd.offset_) ∧
    (st.bufs_ = [] → st.GetPrefetchOffset = none) := by
  constructor
  · intro hd tl h
    simp [FPBState.GetPrefetchOffset, h]
  · intro h
    simp [FPBState.GetPrefetchOffset, h]

/-- Witness for C8's amended theorem at concrete inputs: the two-block state
yields its front offset, the empty state yields no result. -/
theorem getPrefetchOffset_defined_iff_nonempty_witness :
    fpbExample.GetPrefetchOffset = some 0 ∧ fpbEmpty.GetPrefetchOffset = none :=
  ⟨(getPrefetchOffset_defined_iff_nonempty fpbExample).1 (blockAt 0 [1, 2])
      [blockAt 8 [3, 4]] rfl,
   (getPrefetchOffset_defined_iff_nonempty fpbEmpty).2 rfl⟩

end RocksDB
